import Mathlib

/-!
Shallow embedding of the sensor acquisition and scheduling subsystem of
airbuddy_v1 (source file src/sensors/air.py, orchestrator src/main.py).

Modelling conventions:
* Python floats are modelled as rationals; Python ints as integers.
* Timestamps produced by the single call site active in one execution of
  an operation are supplied as an explicit `now : String` argument
  (modelling `_now_iso_local()`).
* The CSV log file is modelled as a `List AirReading`, one element per
  data row, in append order.  Writing a row formats `temp_c` and
  `humidity` with two decimal places (Python format specifier .2f at
  air.py lines 141-142), so the stored row holds the rounded values; all
  other fields round-trip exactly through their textual representation.
  This loss is modelled in `append_log` by `logQuantize`.  Python
  resolves formatting ties by round-half-even on the binary float; the
  model uses `round` (half-up) — no theorem below touches a tie.
* The sensor device (`_try_init` / `_read_once`) is modelled as an
  oracle giving the outcome of each of the at most two read attempts one
  call to `sample_blocking` performs; an attempt on an uninitialized or
  failing device is the `fail` outcome.
* Exceptions are modelled with `Except String`; a raising path returns
  the state unchanged, exactly as the Python methods leave the object's
  fields untouched when they raise.
-/

namespace AirBuddy

attribute [local semireducible] Rat.mul Rat.add Rat.inv Rat.sub

/-- The `AirReading` dataclass (air.py lines 13-22). -/
structure AirReading where
  timestamp_iso : String
  temp_c : ℚ
  humidity : ℚ
  eco2_ppm : ℤ
  tvoc_ppb : ℤ
  aqi : ℤ
  rating : String
  source : String
deriving DecidableEq, Repr

/-- `AirSensor._rating_from_aqi` (air.py lines 108-121): the fixed
mapping from the raw ENS160 air-quality index to the four rating
strings. -/
def rating_from_aqi (aqi : ℤ) : String :=
  if aqi ≤ 1 then "Very good"
  else if aqi = 2 then "Good"
  else if aqi = 3 then "Ok"
  else "Poor"

/-- Severity rank of a rating string, used to state monotonicity of
`rating_from_aqi` ("Very good" is best, "Poor" is worst). -/
def ratingLevel (s : String) : ℕ :=
  if s = "Very good" then 0
  else if s = "Good" then 1
  else if s = "Ok" then 2
  else 3

/-- Floor of a rational, written directly on the numerator and
denominator so that it evaluates inside the kernel. -/
def ratFloor (q : ℚ) : ℤ :=
  q.num.fdiv (q.den : ℤ)

/-- Rounding to two decimal places: the effect of writing a value with
the Python format specifier .2f and parsing the resulting text back
(round to the nearest hundredth; the half-up tie rule here differs from
the half-even rule Python applies to the binary float, and no theorem
below touches a tie). -/
def round2 (q : ℚ) : ℚ :=
  Rat.divInt (ratFloor (100 * q + 1 / 2)) 100

/-- The value-level effect of serializing a reading to a CSV row
(air.py lines 136-148): `temp_c` and `humidity` are formatted with two
decimal places, every other field is written and re-parsed exactly. -/
def logQuantize (r : AirReading) : AirReading :=
  { r with temp_c := round2 r.temp_c, humidity := round2 r.humidity }

/-- `AirSensor._append_log` (air.py lines 136-148): append one data row
to the CSV file. -/
def append_log (r : AirReading) (st : List AirReading) : List AirReading :=
  st ++ [logQuantize r]

/-- `AirSensor.get_last_logged` (air.py lines 150-177): the most recent
data row, or `none` when the log holds no data row.  Rows appended by
`append_log` always have all eight fields, so the malformed-row skip of
the source never fires in the model. -/
def get_last_logged (st : List AirReading) : Option AirReading :=
  st.getLast?

/-- Outcome of one attempt to read the device (`_read_once`, air.py
lines 190-228): either the five measured values, or failure (device
uninitialized or communication error). -/
inductive ReadResult where
  | ok (temp humidity : ℚ) (eco2 tvoc aqi : ℤ)
  | fail
deriving DecidableEq, Repr

/-- The device oracle for one call to `sample_blocking`: the outcome of
the first read attempt and of the retry performed after re-initialization
(air.py lines 246-259). -/
structure Device where
  read1 : ReadResult
  read2 : ReadResult
deriving DecidableEq, Repr

/-- The reading `_read_once` builds on a successful attempt (air.py
lines 219-228): fresh timestamp, measured values, rating derived from
the raw index, caller-supplied provenance. -/
def mkReading (now source : String) (t h : ℚ) (e v a : ℤ) : AirReading :=
  ⟨now, t, h, e, v, a, rating_from_aqi a, source⟩

/-- `AirSensor.sample_blocking` (air.py lines 233-273).  Holding the
lock: optional re-init, blocking warmup (no observable effect on the
state, the parameter is kept for the signature), first read attempt; on
failure re-init and retry once; on second failure fall back to the most
recent logged row with a fresh timestamp and provenance "fallback",
never appending; raise when no fallback row exists.  Returns the
outcome together with the resulting log. -/
def sample_blocking (dev : Device) (now : String) (_warmup_seconds : ℚ)
    (source : String) (log : Bool) (st : List AirReading) :
    Except String AirReading × List AirReading :=
  match dev.read1 with
  | .ok t h e v a =>
      let r := mkReading now source t h e v a
      (.ok r, if log then append_log r st else st)
  | .fail =>
    match dev.read2 with
    | .ok t h e v a =>
        let r := mkReading now source t h e v a
        (.ok r, if log then append_log r st else st)
    | .fail =>
      match get_last_logged st with
      | none => (.error "Sensor read failed and no fallback record exists", st)
      | some last =>
          (.ok ⟨now, last.temp_c, last.humidity, last.eco2_ppm,
                last.tvoc_ppb, last.aqi, last.rating, "fallback"⟩, st)

/-- Warmup-session state of the non-blocking sampling protocol
(air.py lines 60-61): `_warmup_until` and `_warmup_source`. -/
structure SessionState where
  warmup_until : Option ℚ
  warmup_source : Option String
deriving DecidableEq, Repr

/-- `AirSensor.begin_sampling` (air.py lines 278-287): open a session
whose deadline is now plus the (clamped nonnegative) warmup. -/
def begin_sampling (nowT : ℚ) (warmup_seconds : ℚ) (source : String)
    (_s : SessionState) : SessionState :=
  ⟨some (nowT + max 0 warmup_seconds), some source⟩

/-- `AirSensor.is_ready` (air.py lines 289-293). -/
def is_ready (nowT : ℚ) (s : SessionState) : Bool :=
  match s.warmup_until with
  | none => true
  | some u => decide (u ≤ nowT)

/-- The `source = self._warmup_source or "button"` default of
`finish_sampling` (air.py line 300): Python `or` also replaces the
empty string. -/
def sessionSource (s : SessionState) : String :=
  match s.warmup_source with
  | none => "button"
  | some src => if src = "" then "button" else src

/-- `AirSensor.finish_sampling` (air.py lines 295-308): raise before
the deadline (leaving the session untouched); otherwise clear the
session and delegate to `sample_blocking` with zero additional warmup
and the session's provenance.  Returns outcome, session state and
log. -/
def finish_sampling (nowT : ℚ) (dev : Device) (now : String) (log : Bool)
    (s : SessionState) (st : List AirReading) :
    Except String AirReading × SessionState × List AirReading :=
  let source := sessionSource s
  match s.warmup_until with
  | some u =>
      if nowT < u then (.error "Warmup not complete yet", s, st)
      else
        ((sample_blocking dev now 0 source log st).1, ⟨none, none⟩,
          (sample_blocking dev now 0 source log st).2)
  | none =>
      ((sample_blocking dev now 0 source log st).1, ⟨none, none⟩,
        (sample_blocking dev now 0 source log st).2)

/-- Fuel bound for the interruptible warmup loop: the loop removes at
least a fifth of a second of remaining warmup per slice, so the number
of slices is bounded by five times the warmup (plus one final check). -/
def warmup_fuel (w : ℚ) : ℕ :=
  (⌈5 * w⌉).toNat + 1

/-- The interruptible warmup loop of the scheduler body (air.py lines
354-363): while warmup remains and stop is not set, check the pause
flag (break when set), sleep one slice of at most 0.2 s, and subtract
it.  `pause k` / `stop k` give the value observed by the k-th flag
check of this cycle; the function returns the index of the check at
which the loop exited. -/
def warmup_loop (pause stop : ℕ → Bool) : ℕ → ℕ → ℚ → ℕ
  | 0, k, _ => k
  | _fuel + 1, k, left =>
    if left ≤ 0 then k
    else if stop k then k
    else if pause k then k
    else warmup_loop pause stop _fuel (k + 1) (left - min (1 / 5) left)

/-- Result of one due iteration of the scheduler loop. -/
structure CycleResult where
  read_attempted : Bool
  next_time : ℚ
  log : List AirReading
deriving Repr

/-- One iteration of `start_periodic_logging._runner` in the due case
`now ≥ next_time` (air.py lines 352-376): interruptible warmup, then a
re-check of the pause/stop flags; when either is set the cycle is
abandoned and the next attempt scheduled one second later; otherwise a
scheduled `sample_blocking` (its exception swallowed) and the next
attempt a full interval later.  `tExit` is the clock at the post-warmup
check, `tRead` the clock after the read attempt. -/
def scheduler_cycle (dev : Device) (now : String) (tExit tRead : ℚ)
    (pause stop : ℕ → Bool) (warmup_seconds interval_seconds : ℚ)
    (st : List AirReading) : CycleResult :=
  let kEnd := warmup_loop pause stop (warmup_fuel warmup_seconds) 0 warmup_seconds
  if pause (kEnd + 1) || stop (kEnd + 1) then
    ⟨false, tExit + 1, st⟩
  else
    let p := sample_blocking dev now 0 "scheduled" true st
    ⟨true, tRead + interval_seconds, p.2⟩

/-- `AirSensor.pause_periodic_logging` (air.py lines 313-318): set the
pause flag. -/
def pause_periodic_logging (_flag : Bool) : Bool := true

/-- `AirSensor.resume_periodic_logging` (air.py lines 320-324): clear
the pause flag. -/
def resume_periodic_logging (_flag : Bool) : Bool := false

/-- What the orchestrator displays at the end of one sampling cycle. -/
inductive CycleOutcome where
  | shown (r : AirReading) (cached : Bool)
  | errorScreen
deriving DecidableEq, Repr

/-- The single-click sampling section of `main` (main.py lines 79-109):
pause the scheduler, begin a 6-second warmup session with provenance
"button", run the spinner, finish sampling; on an exception show the
last logged reading as cached, or an error screen when none exists; in
every path the `finally` block resumes the scheduler.  Returns the
display outcome, the final pause flag, the session state and the
log. -/
def foreground_cycle (dev : Device) (t0 tFinish : ℚ) (now : String)
    (flag0 : Bool) (s0 : SessionState) (st : List AirReading) :
    CycleOutcome × Bool × SessionState × List AirReading :=
  let flag1 := pause_periodic_logging flag0
  let s1 := begin_sampling t0 6 "button" s0
  let p := finish_sampling tFinish dev now true s1 st
  match p.1 with
  | .ok r =>
      (.shown r (decide (r.source = "fallback")),
       resume_periodic_logging flag1, p.2.1, p.2.2)
  | .error _ =>
    match get_last_logged p.2.2 with
    | none => (.errorScreen, resume_periodic_logging flag1, p.2.1, p.2.2)
    | some l => (.shown l true, resume_periodic_logging flag1, p.2.1, p.2.2)

/-- Events relevant to the serialization property: acquiring and
releasing `self._lock`, the in-lock warmup sleep, the start and end of
a `_read_once` execution, and the log append. -/
inductive Action where
  | acq | warm | rdS | rdE | app | rel
deriving DecidableEq, Repr

/-- The action sequence of one execution of the body of
`sample_blocking` (air.py lines 237-258): acquire the lock, warm up,
read (twice when the first attempt fails and the retry runs), append,
release.  All of it happens between the acquire and the release because
the whole body is inside `with self._lock`. -/
def sampleProgram (retry : Bool) : List Action :=
  [.acq, .warm, .rdS, .rdE]
    ++ (if retry then [.rdS, .rdE] else [])
    ++ [.app, .rel]

/-- The action sequence of a foreground `finish_sampling` (air.py lines
295-308): a first lock-protected section for the session bookkeeping
(no read), then the delegated `sample_blocking` body. -/
def finishProgram (retry : Bool) : List Action :=
  [.acq, .rel] ++ sampleProgram retry

/-- Tag every action of a thread's program with its thread id
(`false` = foreground, `true` = background). -/
def tag (t : Bool) (p : List Action) : List (Bool × Action) :=
  p.map (fun a => (t, a))

/-- `Mix p q tr` holds when the trace `tr` is an interleaving of the
foreground thread running program `p` and the background thread running
program `q`: every schedule the two threads can produce. -/
inductive Mix : List Action → List Action → List (Bool × Action) → Prop
  | nil : Mix [] [] []
  | left {a : Action} {p q tr} : Mix p q tr → Mix (a :: p) q ((false, a) :: tr)
  | right {a : Action} {p q tr} : Mix p q tr → Mix p (a :: q) ((true, a) :: tr)

/-- Lock discipline of `threading.Lock`: an acquire only proceeds when
the lock is free (a thread attempting it while the lock is held blocks,
so no real trace contains that shape), and only the holder releases. -/
def lockOkB : Option Bool → List (Bool × Action) → Bool
  | _, [] => true
  | holder, (t, a) :: rest =>
    match a, holder with
    | .acq, none => lockOkB (some t) rest
    | .acq, some _ => false
    | .rel, some h => t == h && lockOkB none rest
    | .rel, none => false
    | _, _ => lockOkB holder rest

/-- Checks that no read interval of one thread overlaps a read interval
of the other (or of itself): between a read-start and its matching
read-end no other read event occurs. -/
def noOverlapB : Option Bool → List (Bool × Action) → Bool
  | _, [] => true
  | cur, (t, a) :: rest =>
    match a, cur with
    | .rdS, none => noOverlapB (some t) rest
    | .rdS, some _ => false
    | .rdE, some h => t == h && noOverlapB none rest
    | .rdE, none => false
    | _, _ => noOverlapB cur rest

/-- One step of a single thread's lock/read protocol: from (holding,
mid-read) state, which actions its program may perform next and the
state after them.  Encodes what the source guarantees structurally:
every action of `sample_blocking`'s body happens while holding the
lock, and reads are properly bracketed. -/
def threadStep : Bool → Bool → Action → Option (Bool × Bool)
  | false, false, .acq => some (true, false)
  | true, false, .rel => some (false, false)
  | true, false, .rdS => some (true, true)
  | true, true, .rdE => some (true, false)
  | true, false, .warm => some (true, false)
  | true, false, .app => some (true, false)
  | _, _, _ => none

/-- A program is well-formed from a given (holding, mid-read) state
when every action follows the single-thread protocol. -/
def threadOkB : Bool → Bool → List Action → Bool
  | _, _, [] => true
  | h, r, a :: rest =>
    match threadStep h r a with
    | some s => threadOkB s.1 s.2 rest
    | none => false

/-- The lock holder determined by the two threads' holding flags. -/
def lockOf (h1 h2 : Bool) : Option Bool :=
  if h1 then some false else if h2 then some true else none

/-- The thread currently mid-read, determined by the mid-read flags. -/
def curOf (r1 r2 : Bool) : Option Bool :=
  if r1 then some false else if r2 then some true else none

deriving instance DecidableEq for Except

/-!
Helper lemmas shared by the claim theorems.
-/

/-- `ratingLevel` composed with `rating_from_aqi`, in closed arithmetic
form. -/
theorem ratingLevel_rating_from_aqi (a : ℤ) :
    ratingLevel (rating_from_aqi a) =
      if a ≤ 1 then 0 else if a = 2 then 1 else if a = 3 then 2 else 3 := by
  simp only [rating_from_aqi, ratingLevel]
  by_cases h1 : a ≤ 1 <;> by_cases h2 : a = 2 <;> by_cases h3 : a = 3 <;>
    simp [h1, h2, h3]

/-- The background thread running alone produces the tagged trace of
its program. -/
theorem mix_nil_left (q : List Action) : Mix [] q (tag true q) := by
  induction q with
  | nil => exact Mix.nil
  | cons a q ih => exact Mix.right ih

/-- Running the foreground program to completion and then the
background program is one particular interleaving. -/
theorem mix_seq (p q : List Action) : Mix p q (tag false p ++ tag true q) := by
  induction p with
  | nil => exact mix_nil_left q
  | cons a p ih => exact Mix.left ih

/-- Mutual-exclusion invariant: along any interleaving of two
well-formed thread programs that respects the lock discipline, reads
never overlap.  State: `h1 r1` (`h2 r2`) are the foreground
(background) thread's holding and mid-read flags, the lock holder and
the thread mid-read are determined by them. -/
theorem serialized_aux {p q : List Action} {tr : List (Bool × Action)}
    (hI : Mix p q tr) :
    ∀ (h1 r1 h2 r2 : Bool), (h1 && h2) = false → (r1 = true → h1 = true) →
      (r2 = true → h2 = true) →
      threadOkB h1 r1 p = true → threadOkB h2 r2 q = true →
      lockOkB (lockOf h1 h2) tr = true → noOverlapB (curOf r1 r2) tr = true := by
  induction hI with
  | nil => intro h1 r1 h2 r2 _ _ _ _ _ _; rfl
  | @left a p q tr hI ih =>
      intro h1 r1 h2 r2 hb hr1 hr2 hp hq hlk
      cases a <;> cases h1 <;> cases r1 <;> cases h2 <;> cases r2 <;>
        first
          | exact Bool.noConfusion hp
          | exact Bool.noConfusion hq
          | exact Bool.noConfusion hlk
          | exact Bool.noConfusion hb
          | exact Bool.noConfusion (hr1 rfl)
          | exact Bool.noConfusion (hr2 rfl)
          | exact ih _ _ _ _ (by decide) (by decide) (by decide) hp hq hlk
  | @right a p q tr hI ih =>
      intro h1 r1 h2 r2 hb hr1 hr2 hp hq hlk
      cases a <;> cases h1 <;> cases r1 <;> cases h2 <;> cases r2 <;>
        first
          | exact Bool.noConfusion hp
          | exact Bool.noConfusion hq
          | exact Bool.noConfusion hlk
          | exact Bool.noConfusion hb
          | exact Bool.noConfusion (hr1 rfl)
          | exact Bool.noConfusion (hr2 rfl)
          | exact ih _ _ _ _ (by decide) (by decide) (by decide) hp hq hlk

/-!
Claim theorems.
-/

/-- Claim C1: when both read attempts fail and the log holds at least
one reading, `sample_blocking` returns a reading whose provenance is
"fallback", whose measurement fields (temperature, humidity, eCO2,
TVOC, raw index, rating) equal those of the most recent logged reading,
whose timestamp is the freshly generated one, and the log is returned
unchanged (no append), for any `persist` flag. -/
theorem sample_blocking_fallback (dev : Device) (now : String) (w : ℚ)
    (source : String) (log : Bool) (st : List AirReading) (last : AirReading)
    (h1 : dev.read1 = .fail) (h2 : dev.read2 = .fail)
    (hl : get_last_logged st = some last) :
    sample_blocking dev now w source log st =
      (.ok ⟨now, last.temp_c, last.humidity, last.eco2_ppm, last.tvoc_ppb,
            last.aqi, last.rating, "fallback"⟩, st) := by
  simp [sample_blocking, h1, h2, hl]

/-- Witness for C1 at a concrete device, log and timestamp. -/
theorem sample_blocking_fallback_witness :
    sample_blocking ⟨.fail, .fail⟩ "T1" 0 "button" true
        [⟨"T0", 20, 50, 400, 5, 2, "Good", "scheduled"⟩] =
      (.ok ⟨"T1", 20, 50, 400, 5, 2, "Good", "fallback"⟩,
        [⟨"T0", 20, 50, 400, 5, 2, "Good", "scheduled"⟩]) :=
  sample_blocking_fallback _ _ _ _ _ _ ⟨"T0", 20, 50, 400, 5, 2, "Good", "scheduled"⟩ rfl rfl rfl

/-- Claim C2 counterexample: after a `finish_sampling` at the deadline
succeeds and clears the session, a second `finish_sampling` without a
new `begin_sampling` does not fail: it returns a fresh reading (with
provenance "button").  The claim's final clause ("a second
finish_sampling without an intervening begin_sampling fails") is false
on the code. -/
theorem finish_second_call_succeeds_cex :
    (finish_sampling 10 ⟨.ok 20 50 400 5 2, .fail⟩ "T1" true
        ⟨some 6, some "button"⟩ []).2.1 = ⟨none, none⟩ ∧
    (finish_sampling 11 ⟨.ok 20 50 400 5 2, .fail⟩ "T2" true
        (finish_sampling 10 ⟨.ok 20 50 400 5 2, .fail⟩ "T1" true
          ⟨some 6, some "button"⟩ []).2.1
        (finish_sampling 10 ⟨.ok 20 50 400 5 2, .fail⟩ "T1" true
          ⟨some 6, some "button"⟩ []).2.2).1 =
      .ok (mkReading "T2" "button" 20 50 400 5 2) := by
  constructor <;> decide

/-- Claim C2 (amended): `finish_sampling` before the open session's
deadline fails with the "warmup not complete" error and leaves the
session open (state unchanged); at or after the deadline it clears the
session and delegates to `sample_blocking` with zero warmup and the
session's provenance (returning that sample's reading whenever it
succeeds); and a second `finish_sampling` on the cleared session does
not raise the warmup error but immediately delegates to
`sample_blocking` with provenance "button". -/
theorem finish_sampling_deadline (nowT : ℚ) (dev : Device) (now : String)
    (log : Bool) (s : SessionState) (st : List AirReading) (u : ℚ)
    (hu : s.warmup_until = some u) :
    (nowT < u → finish_sampling nowT dev now log s st =
        (.error "Warmup not complete yet", s, st)) ∧
    (u ≤ nowT → finish_sampling nowT dev now log s st =
        ((sample_blocking dev now 0 (sessionSource s) log st).1, ⟨none, none⟩,
          (sample_blocking dev now 0 (sessionSource s) log st).2)) ∧
    (∀ (nowT2 : ℚ) (dev2 : Device) (now2 : String) (log2 : Bool)
        (st2 : List AirReading),
      finish_sampling nowT2 dev2 now2 log2 ⟨none, none⟩ st2 =
        ((sample_blocking dev2 now2 0 "button" log2 st2).1, ⟨none, none⟩,
          (sample_blocking dev2 now2 0 "button" log2 st2).2)) := by
  refine ⟨fun h => ?_, fun h => ?_, fun _ _ _ _ _ => rfl⟩
  · simp [finish_sampling, hu, h]
  · simp [finish_sampling, hu, not_lt.2 h]

/-- Witness for C2 (amended) at a concrete early call: before the
deadline the warmup error is raised and the session is left open. -/
theorem finish_sampling_deadline_witness :
    finish_sampling 3 ⟨.fail, .fail⟩ "T" true ⟨some 6, some "button"⟩ [] =
      (.error "Warmup not complete yet", ⟨some 6, some "button"⟩, []) :=
  (finish_sampling_deadline 3 ⟨.fail, .fail⟩ "T" true ⟨some 6, some "button"⟩
    [] 6 rfl).1 (by decide)

/-- Claim C3 counterexample: a reading whose temperature needs more
than two decimal places does not survive the log round-trip, because
`_append_log` writes it with the two-decimal format.  So "returns a
Reading equal to r in all fields" fails for this r. -/
theorem append_roundtrip_exact_cex :
    get_last_logged (append_log ⟨"T", 1/1000, 50, 400, 5, 2, "Good", "button"⟩ []) ≠
      some ⟨"T", 1/1000, 50, 400, 5, 2, "Good", "button"⟩ := by
  decide

/-- Claim C3 (amended): appending a reading and reading the last logged
entry returns it unchanged in all fields, provided its temperature and
humidity are exactly representable with two decimal places (all other
fields always round-trip exactly). -/
theorem append_roundtrip_two_decimal (r : AirReading) (st : List AirReading)
    (ht : round2 r.temp_c = r.temp_c) (hh : round2 r.humidity = r.humidity) :
    get_last_logged (append_log r st) = some r := by
  have hq : logQuantize r = r := by
    simp only [logQuantize]
    rw [ht, hh]
  simp [get_last_logged, append_log, hq]

/-- Witness for C3 (amended) at a two-decimal reading. -/
theorem append_roundtrip_two_decimal_witness :
    get_last_logged (append_log ⟨"T", 21/4, 50, 400, 5, 2, "Ok", "button"⟩ []) =
      some ⟨"T", 21/4, 50, 400, 5, 2, "Ok", "button"⟩ :=
  append_roundtrip_two_decimal _ _ (by decide) (by decide)

/-- Claim C4 counterexample: with a working device and persist on, the
single appended entry is not equal to the returned reading when the
measured temperature needs more than two decimal places (the entry
stores the two-decimal formatting of it). -/
theorem sample_blocking_append_exact_cex :
    (sample_blocking ⟨.ok (1/1000) 50 400 5 2, .fail⟩ "T" 0 "button" true []).1 =
      .ok (mkReading "T" "button" (1/1000) 50 400 5 2) ∧
    (sample_blocking ⟨.ok (1/1000) 50 400 5 2, .fail⟩ "T" 0 "button" true []).2 ≠
      [mkReading "T" "button" (1/1000) 50 400 5 2] := by
  constructor <;> decide

/-- Claim C4 (amended): when the first read attempt succeeds and
persist is on, exactly one entry is appended, namely the returned
reading with temperature and humidity rounded to the log's two decimal
places (equal to the returned reading whenever those fields are
two-decimal values), and the returned reading's provenance is the
caller-supplied one. -/
theorem sample_blocking_success_appends (dev : Device) (now : String) (w : ℚ)
    (source : String) (st : List AirReading) (t h : ℚ) (e v a : ℤ)
    (hr : dev.read1 = .ok t h e v a) :
    sample_blocking dev now w source true st =
      (.ok (mkReading now source t h e v a),
        st ++ [logQuantize (mkReading now source t h e v a)]) ∧
    (mkReading now source t h e v a).source = source ∧
    (round2 t = t → round2 h = h →
      logQuantize (mkReading now source t h e v a) = mkReading now source t h e v a) := by
  refine ⟨by simp [sample_blocking, hr, append_log], rfl, fun ht hh => ?_⟩
  simp [logQuantize, mkReading, ht, hh]

/-- Witness for C4 (amended) at a concrete working device. -/
theorem sample_blocking_success_appends_witness :
    sample_blocking ⟨.ok 20 50 400 5 2, .fail⟩ "T" 0 "scheduled" true [] =
      (.ok (mkReading "T" "scheduled" 20 50 400 5 2),
        [] ++ [logQuantize (mkReading "T" "scheduled" 20 50 400 5 2)]) ∧
    (mkReading "T" "scheduled" 20 50 400 5 2).source = "scheduled" ∧
    (round2 20 = 20 → round2 50 = 50 →
      logQuantize (mkReading "T" "scheduled" 20 50 400 5 2) =
        mkReading "T" "scheduled" 20 50 400 5 2) :=
  sample_blocking_success_appends _ _ _ _ _ _ _ _ _ _ rfl

/-- Claim C5: with both read attempts failing and an empty log,
`sample_blocking` raises the "no fallback" error with the log
unchanged, and that combination is the only condition under which it
raises rather than returning a reading. -/
theorem sample_blocking_error_iff (dev : Device) (now : String) (w : ℚ)
    (source : String) (log : Bool) (st : List AirReading) :
    ((∃ e, (sample_blocking dev now w source log st).1 = .error e) ↔
      dev.read1 = .fail ∧ dev.read2 = .fail ∧ st = []) ∧
    (dev.read1 = .fail → dev.read2 = .fail → st = [] →
      sample_blocking dev now w source log st =
        (.error "Sensor read failed and no fallback record exists", st)) := by
  obtain ⟨r1, r2⟩ := dev
  cases r1 with
  | ok t h e v a => simp [sample_blocking]
  | fail =>
    cases r2 with
    | ok t h e v a => simp [sample_blocking]
    | fail =>
      cases hst : st.getLast? with
      | none =>
          have hnil : st = [] := List.getLast?_eq_none_iff.mp hst
          subst hnil
          simp [sample_blocking, get_last_logged]
      | some lastr =>
          have hne : st ≠ [] := by
            intro hnil
            rw [hnil] at hst
            simp at hst
          simp [sample_blocking, get_last_logged, hst, hne]

/-- Witness for C5 at the failing device and empty log. -/
theorem sample_blocking_error_iff_witness :
    sample_blocking ⟨.fail, .fail⟩ "T" 0 "button" true [] =
      (.error "Sensor read failed and no fallback record exists", []) :=
  (sample_blocking_error_iff ⟨.fail, .fail⟩ "T" 0 "button" true []).2 rfl rfl rfl

/-- Claim C6: the rating mapping is total on the integers and follows
the fixed table (index ≤ 1 gives "Very good", 2 gives "Good", 3 gives
"Ok", ≥ 4 gives "Poor"), and it is monotone in the raw index with
respect to the rating severity order. -/
theorem rating_from_aqi_spec :
    (∀ a : ℤ, a ≤ 1 → rating_from_aqi a = "Very good") ∧
    rating_from_aqi 2 = "Good" ∧ rating_from_aqi 3 = "Ok" ∧
    (∀ a : ℤ, 4 ≤ a → rating_from_aqi a = "Poor") ∧
    (∀ a b : ℤ, a ≤ b →
      ratingLevel (rating_from_aqi a) ≤ ratingLevel (rating_from_aqi b)) := by
  refine ⟨fun a ha => by simp [rating_from_aqi, ha], by decide, by decide,
    fun a ha => ?_, fun a b hab => ?_⟩
  · have n1 : ¬ a ≤ 1 := by omega
    have n2 : a ≠ 2 := by omega
    have n3 : a ≠ 3 := by omega
    simp [rating_from_aqi, n1, n2, n3]
  · rw [ratingLevel_rating_from_aqi, ratingLevel_rating_from_aqi]
    split_ifs <;> omega

/-- Witness for C6 at concrete indices. -/
theorem rating_from_aqi_spec_witness :
    rating_from_aqi 1 = "Very good" ∧ rating_from_aqi 5 = "Poor" ∧
    ratingLevel (rating_from_aqi 1) ≤ ratingLevel (rating_from_aqi 4) :=
  ⟨rating_from_aqi_spec.1 1 (by decide),
    rating_from_aqi_spec.2.2.2.1 5 (by decide),
    rating_from_aqi_spec.2.2.2.2 1 4 (by decide)⟩

/-- Claim C7: if the pause flag is set during a scheduler cycle's
interruptible warmup (and stays set, the flag being monotone across
this cycle's checks), the cycle performs no read attempt and no log
append, and the next attempt is scheduled one second after the
abandonment — sooner than a full interval whenever the interval exceeds
one second. -/
theorem scheduler_pause_abandons (dev : Device) (now : String)
    (tExit tRead : ℚ) (pause stop : ℕ → Bool) (w interval : ℚ)
    (st : List AirReading)
    (hmono : ∀ i j : ℕ, i ≤ j → pause i = true → pause j = true)
    (hp : pause (warmup_loop pause stop (warmup_fuel w) 0 w) = true)
    (hi : 1 < interval) :
    scheduler_cycle dev now tExit tRead pause stop w interval st =
      ⟨false, tExit + 1, st⟩ ∧ tExit + 1 < tExit + interval := by
  have h2 : pause (warmup_loop pause stop (warmup_fuel w) 0 w + 1) = true :=
    hmono _ _ (Nat.le_succ _) hp
  refine ⟨?_, by linarith⟩
  simp [scheduler_cycle, h2]

/-- Witness for C7 with the pause flag set throughout a cycle. -/
theorem scheduler_pause_abandons_witness :
    scheduler_cycle ⟨.ok 20 50 400 5 2, .fail⟩ "T" 0 0 (fun _ => true)
        (fun _ => false) 30 600 [] = ⟨false, 0 + 1, []⟩ ∧
    (0 : ℚ) + 1 < 0 + 600 :=
  scheduler_pause_abandons _ _ _ _ _ _ _ _ _ (fun _ _ _ h => h) rfl (by decide)

/-- Claim C8: in every trace that interleaves one foreground
`finish_sampling` execution with one background scheduled
`sample_blocking` execution (each with or without the retry read) and
that respects the lock discipline of the single engine lock, the two
threads' device-read intervals never overlap: reads are serialized
because the whole body of `sample_blocking`, warmup included, runs
while holding the lock. -/
theorem reads_serialized (retryF retryB : Bool) (tr : List (Bool × Action))
    (hI : Mix (finishProgram retryF) (sampleProgram retryB) tr)
    (hlk : lockOkB none tr = true) : noOverlapB none tr = true :=
  serialized_aux hI false false false false rfl
    (fun h => Bool.noConfusion h) (fun h => Bool.noConfusion h)
    (by cases retryF <;> decide) (by cases retryB <;> decide) hlk

/-- Witness for C8 at the sequential schedule of the two programs. -/
theorem reads_serialized_witness :
    noOverlapB none
      (tag false (finishProgram true) ++ tag true (sampleProgram true)) = true :=
  reads_serialized true true _
    (mix_seq (finishProgram true) (sampleProgram true)) (by decide)

/-- Claim C9: every foreground button cycle ends with the background
scheduler resumed — whatever `finish_sampling` returns or raises, and
whether or not fallback data exists, the pause flag is cleared at the
end of the cycle (the resumption sits in the `finally` block of the
orchestrator). -/
theorem foreground_cycle_resumes (dev : Device) (t0 tFinish : ℚ)
    (now : String) (flag0 : Bool) (s0 : SessionState) (st : List AirReading) :
    (foreground_cycle dev t0 tFinish now flag0 s0 st).2.1 = false := by
  cases hp : (finish_sampling tFinish dev now true
      (begin_sampling t0 6 "button" s0) st).1 with
  | ok r => simp [foreground_cycle, hp, resume_periodic_logging]
  | error e =>
      cases hg : get_last_logged (finish_sampling tFinish dev now true
          (begin_sampling t0 6 "button" s0) st).2.2 <;>
        simp [foreground_cycle, hp, hg, resume_periodic_logging]

/-- Claim C10: `finish_sampling` with no open session (never begun, or
already consumed by a previous call, both leaving the cleared session
state) does not raise the warmup error: it immediately delegates to a
full blocking sample with zero warmup and provenance "button". -/
theorem finish_sampling_no_session (nowT : ℚ) (dev : Device) (now : String)
    (log : Bool) (st : List AirReading) :
    finish_sampling nowT dev now log ⟨none, none⟩ st =
      ((sample_blocking dev now 0 "button" log st).1, ⟨none, none⟩,
        (sample_blocking dev now 0 "button" log st).2) := rfl

end AirBuddy
